import Mathlib

/-!
Verification of the HashiCorp Vault credential plugin backends
(`awx/main/credential_plugins/hashivault.py`).

Strings are modelled as `List Char` (`Str`); Python `str` values map to
`Str`, optional keyword arguments to `Option Str`.  The HTTP exchange is
split into a pure request builder (URL, query parameters, JSON body) and a
pure response handler taking the remote service's response as a value; the
response handler returns `Except VaultError Json`, where the error
constructors stand for the Python exceptions that the backend can raise
(`requests.HTTPError` from `raise_for_status`, a JSON decode failure from
`response.json()`, an uncaught `KeyError`/`TypeError` from subscripting,
and the `RuntimeError` raised for a missing secret key).
-/

/-- Python strings, modelled as lists of characters. -/
abbrev Str := List Char

/-- Coerce a Lean string literal to the `List Char` model. -/
def str (s : String) : Str := s.data

/-- JSON values, as produced by `response.json()`. -/
inductive Json where
  | null : Json
  | bool : Bool → Json
  | num : Int → Json
  | str : Str → Json
  | arr : List Json → Json
  | obj : List (Str × Json) → Json

/-- Python exceptions raised by subscripting (`x[k]`): `KeyError` when a
dict lacks the key, `TypeError` when the value is not a dict. -/
inductive PyExc where
  | keyError : Str → PyExc
  | typeError : PyExc
deriving DecidableEq

/-- First-match association-list lookup, the model of Python dict access
(JSON object keys are unique, so first match is the only match). -/
def assocLookup (kvs : List (Str × Json)) (k : Str) : Option Json :=
  match kvs with
  | [] => none
  | (k1, v) :: rest => if k1 = k then some v else assocLookup rest k

/-- Python subscripting `j[k]`: `KeyError` on a dict missing `k`,
`TypeError` on a non-dict. -/
def getItem (j : Json) (k : Str) : Except PyExc Json :=
  match j with
  | .obj kvs =>
    match assocLookup kvs k with
    | some v => .ok v
    | none => .error (.keyError k)
  | _ => .error .typeError

/-- Total variant of object-field lookup (used on the specification side:
`some v` exactly when `j` is an object with field `k` holding `v`). -/
def jget (j : Json) (k : Str) : Option Json :=
  match j with
  | .obj kvs => assocLookup kvs k
  | _ => none

/-- Python truthiness of an optional string argument
(`kwargs.get(name)` followed by `if value:`): `True` exactly when the
argument is present and non-empty. -/
def truthyOpt : Option Str → Bool
  | none => false
  | some s => !s.isEmpty

/-- Split a character list at every `'/'` (the separator is dropped);
always returns at least one (possibly empty) segment.  This is the
segment decomposition underlying both `pathlib.Path(...).parts` and
netloc/path handling in `urllib.parse.urljoin`. -/
def splitOnSlash : Str → List Str
  | [] => [[]]
  | c :: cs =>
    if c = '/' then [] :: splitOnSlash cs
    else
      match splitOnSlash cs with
      | [] => [[c]]
      | seg :: rest => (c :: seg) :: rest

/-- `secret_path.lstrip(os.sep)` on Linux: drop all leading `'/'`. -/
def lstripSlash (s : Str) : Str := s.dropWhile (fun c => c = '/')

/-- `pathlib.Path(secret_path.lstrip(os.sep)).parts` on Linux: split on
`'/'`, discarding empty segments (collapsed slashes, trailing slash) and
single-dot segments, which `pathlib` normalises away.  The input has no
leading slash left, so no root part arises. -/
def pathParts (s : Str) : List Str :=
  (splitOnSlash (lstripSlash s)).filter (fun seg => seg ≠ [] ∧ seg ≠ ['.'])

/-- The KV v2 location decomposition:
`mount_point, *path = pathlib.Path(secret_path.lstrip(os.sep)).parts`
with the `except Exception` fallback `mount_point, path = secret_path, []`.
Unpacking fails exactly when `parts` is empty (the input was empty or all
slashes), which the code catches, keeping the whole original string as
the mount point with an empty sub-path. -/
def splitSecretPath (s : Str) : Str × List Str :=
  match pathParts s with
  | [] => (s, [])
  | mp :: rest => (mp, rest)

/-- Python `'/'.join(xs)` on the character-list model. -/
def joinSlash : List Str → Str
  | [] => []
  | [s] => s
  | s :: rest => s ++ '/' :: joinSlash rest

/-- Python `s.rstrip('/')`: drop every trailing `'/'`. -/
def rstripSlash (s : Str) : Str :=
  (s.reverse.dropWhile (fun c => c = '/')).reverse

/-- Scan for the first occurrence of the scheme separator `"://"`;
returns the text up to and including it, and the remainder. -/
def findSchemeSplit : Str → Option (Str × Str)
  | ':' :: '/' :: '/' :: rest => some ([':', '/', '/'], rest)
  | c :: cs => (findSchemeSplit cs).map (fun pr => (c :: pr.1, pr.2))
  | [] => none

/-- Join the relative reference `v1` against a parsed base: `rest` is
netloc followed by the path; the path's last segment is replaced by
`v1`, an empty path becomes `/v1`. -/
def urljoinCore (pre rest : Str) : Str :=
  match splitOnSlash rest with
  | [] => pre ++ str ("v1")
  | netloc :: segs =>
    pre ++ netloc ++ '/' :: joinSlash (segs.dropLast ++ [str ("v1")])

/-- `urllib.parse.urljoin(url, 'v1')` for `http(s)` URLs without query or
fragment components: keep scheme and netloc, and resolve the relative
reference `v1` against the base path — the base path's last segment is
replaced by `v1`, an empty base path becomes `/v1`.  A URL with no
scheme separator resolves to just `v1`, as in Python. -/
def urljoinV1 (url : Str) : Str :=
  match findSchemeSplit url with
  | none => str ("v1")
  | some (pre, rest) => urljoinCore pre rest

/-- The `kwargs` of `kv_backend`: required string parameters are `Str`,
parameters read through `kwargs.get(..., None)` are `Option Str`. -/
structure KvArgs where
  token : Str
  url : Str
  secret_path : Str
  secret_key : Option Str := none
  cacert : Option Str := none
  api_version : Str
  secret_version : Option Str := none

/-- The `kwargs` of `ssh_backend`. -/
structure SshArgs where
  token : Str
  url : Str
  secret_path : Str
  role : Str
  cacert : Option Str := none
  public_key : Str
  valid_principals : Option Str := none

/-- The remote service's HTTP response: status code, raw body text, and
the body decoded as JSON (`none` when `response.json()` fails). -/
structure HttpResponse where
  status : Nat
  rawBody : Str
  json : Option Json

/-- Errors a backend invocation can raise.  `httpError` is the
`requests.HTTPError` out of `raise_for_status` (carrying status and
body), `jsonDecodeError` a failure of `response.json()`, `uncaught` a
`KeyError`/`TypeError` from subscripting that no handler catches, and
`notFound` the `RuntimeError('{} is not present at {}')`. -/
inductive VaultError where
  | httpError : Nat → Str → VaultError
  | jsonDecodeError : VaultError
  | uncaught : PyExc → VaultError
  | notFound : Str → VaultError
deriving DecidableEq

/-- `response.raise_for_status()`: `requests` raises `HTTPError` exactly
for 4xx and 5xx status codes. -/
def raiseForStatus (status : Nat) : Bool :=
  (400 ≤ status && status < 500) || (500 ≤ status && status < 600)

/-- `'{} is not present at {}'.format(secret_key, secret_path)`. -/
def notFoundMsg (k p : Str) : Str := k ++ str (" is not present at ") ++ p

/-- `sess.headers['Authorization'] = 'Bearer {}'.format(token)`. -/
def authHeader (token : Str) : Str := str ("Bearer ") ++ token

/-- `url = urljoin(kwargs['url'], 'v1')` in `kv_backend`. -/
def kvBase (a : KvArgs) : Str := urljoinV1 a.url

/-- The KV request URL.  v2:
`'/'.join([url, mount_point, 'data'] + path).rstrip('/')` with
`(mount_point, path)` the location decomposition; otherwise:
`'/'.join([url, secret_path]).rstrip('/')`. -/
def kvRequestUrl (a : KvArgs) : Str :=
  if a.api_version = str ("v2") then
    rstripSlash (joinSlash ([kvBase a, (splitSecretPath a.secret_path).1,
      str ("data")] ++ (splitSecretPath a.secret_path).2))
  else
    rstripSlash (joinSlash [kvBase a, a.secret_path])

/-- The KV query parameters: `request_kwargs['params']` is set to
`{'version': kwargs['secret_version']}` only in the v2 branch and only
when `kwargs.get('secret_version')` is truthy. -/
def kvParams (a : KvArgs) : List (Str × Str) :=
  if a.api_version = str ("v2") then
    if truthyOpt a.secret_version then
      [(str ("version"), a.secret_version.getD [])]
    else []
  else []

/-- The assignment to the `json` variable of `kv_backend`: in the v2
branch `json = response.json()['data']` (an uncaught
`KeyError`/`TypeError` when absent or not a dict), otherwise
`json = response.json()`. -/
def kvStage1 (a : KvArgs) (body : Json) : Except VaultError Json :=
  if a.api_version = str ("v2") then
    match getItem body (str ("data")) with
    | .error e => .error (.uncaught e)
    | .ok d => .ok d
  else .ok body

/-- The `[secret_key]` subscript inside the `try ... except KeyError`
of `kv_backend`: a `KeyError` becomes the not-found `RuntimeError`
(naming `secret_key` and `secret_path`), a `TypeError` propagates. -/
def kvLookup (a : KvArgs) (m : Json) : Except VaultError Json :=
  match getItem m (a.secret_key.getD []) with
  | .error (.keyError _) =>
    .error (.notFound (notFoundMsg (a.secret_key.getD []) a.secret_path))
  | .error .typeError => .error (.uncaught .typeError)
  | .ok v => .ok v

/-- The tail of `kv_backend`: when `secret_key` is truthy, evaluate
`json['data'][secret_key]` inside `try ... except KeyError`, turning a
`KeyError` from either subscript into the not-found `RuntimeError`
(naming `secret_key` and `secret_path`) while a `TypeError` propagates
uncaught; when `secret_key` is not truthy, return `json['data']` with
subscript errors uncaught. -/
def kvFinish (a : KvArgs) (json : Json) : Except VaultError Json :=
  if truthyOpt a.secret_key then
    match getItem json (str ("data")) with
    | .error (.keyError _) =>
      .error (.notFound (notFoundMsg (a.secret_key.getD []) a.secret_path))
    | .error .typeError => .error (.uncaught .typeError)
    | .ok m => kvLookup a m
  else
    match getItem json (str ("data")) with
    | .error e => .error (.uncaught e)
    | .ok m => .ok m

/-- The v1/v2 `json` assignment (`kvStage1`) followed by the
`secret_key` extraction (`kvFinish`), on a decoded body. -/
def kvDecode (a : KvArgs) (body : Json) : Except VaultError Json :=
  match kvStage1 a body with
  | .error e => .error e
  | .ok json => kvFinish a json

/-- Response processing of `kv_backend`, after the GET returns `r`:
`raise_for_status`; decode JSON; then the v1/v2 `json` assignment and
the `secret_key` extraction. -/
def kv_run (a : KvArgs) (r : HttpResponse) : Except VaultError Json :=
  if raiseForStatus r.status then
    .error (.httpError r.status r.rawBody)
  else
    match r.json with
    | none => .error .jsonDecodeError
    | some body => kvDecode a body

/-- `url = urljoin(kwargs['url'], 'v1')` in `ssh_backend`. -/
def sshBase (a : SshArgs) : Str := urljoinV1 a.url

/-- `'/'.join([url, secret_path, 'sign', role]).rstrip('/')`. -/
def sshRequestUrl (a : SshArgs) : Str :=
  rstripSlash (joinSlash [sshBase a, a.secret_path, str ("sign"), a.role])

/-- The POST body: `{'public_key': kwargs['public_key']}`, extended with
`valid_principals` when `kwargs.get('valid_principals')` is truthy. -/
def sshBody (a : SshArgs) : List (Str × Json) :=
  [(str ("public_key"), .str a.public_key)] ++
    (if truthyOpt a.valid_principals then
      [(str ("valid_principals"), .str (a.valid_principals.getD []))]
    else [])

/-- The `['signed_key']` subscript of `ssh_backend`. -/
def sshExtract (d : Json) : Except VaultError Json :=
  match getItem d (str ("signed_key")) with
  | .error e => .error (.uncaught e)
  | .ok v => .ok v

/-- `resp.json()['data']['signed_key']` on a decoded body, with
subscript errors uncaught. -/
def sshDecode (body : Json) : Except VaultError Json :=
  match getItem body (str ("data")) with
  | .error e => .error (.uncaught e)
  | .ok d => sshExtract d

/-- Response processing of `ssh_backend`:
`resp.raise_for_status()` then `resp.json()['data']['signed_key']`, with
subscript errors uncaught. -/
def ssh_run (a : SshArgs) (r : HttpResponse) : Except VaultError Json :=
  if raiseForStatus r.status then
    .error (.httpError r.status r.rawBody)
  else
    match r.json with
    | none => .error .jsonDecodeError
    | some body => sshDecode body

/-- Specification-side formulation of the KV mapping extraction (stated
from the spec's words, for comparison with `kv_run`): for `v2` the
mapping is the response's `data.data` object, for `v1` the response's
top-level `data` object. -/
def specKvMapping (api : Str) (body : Json) : Option Json :=
  if api = str ("v2") then
    (jget body (str ("data"))).bind (fun d => jget d (str ("data")))
  else
    jget body (str ("data"))

/-- Discriminator: is the outcome the transport error (HTTP status failure)? -/
def isTransportError : Except VaultError Json → Bool
  | .error (.httpError _ _) => true
  | _ => false

/-- Discriminator: is the outcome the secret-not-found `RuntimeError`? -/
def isSecretNotFound : Except VaultError Json → Bool
  | .error (.notFound _) => true
  | _ => false

/-- Discriminator: is the outcome a decode/shape failure — a JSON decode
error or an uncaught subscript exception? -/
def isDecodeShapeError : Except VaultError Json → Bool
  | .error .jsonDecodeError => true
  | .error (.uncaught _) => true
  | _ => false

example : truthyOpt (some (str ("v"))) = true := by decide
example : truthyOpt (some (str (""))) = false := by decide
example : str ("ab") = ['a', 'b'] := rfl
example : splitSecretPath (str ("eng/a/b")) = (str ("eng"), [str ("a"), str ("b")]) := by decide
example : splitSecretPath (str ("///")) = (str ("///"), []) := by decide
example : splitSecretPath (str ("/eng/")) = (str ("eng"), []) := by decide
example : urljoinV1 (str ("https://h.io")) = str ("https://h.io/v1") := by decide
example : urljoinV1 (str ("https://h.io/")) = str ("https://h.io/v1") := by decide
example : urljoinV1 (str ("https://h.io/a/b")) = str ("https://h.io/a/v1") := by decide
example : urljoinV1 (str ("h.io")) = str ("v1") := by decide
example : rstripSlash (str ("a/b//")) = str ("a/b") := by decide

example :
    kv_run { token := [], url := str ("https://h.io"), secret_path := str ("a/b"),
             secret_key := some (str ("foo")), api_version := str ("v2") }
      { status := 200, rawBody := [],
        json := some (.obj [(str ("data"),
          .obj [(str ("data"), .obj [(str ("foo"), .str (str ("bar")))])])]) } =
    .ok (.str (str ("bar"))) := rfl

example :
    kv_run { token := [], url := str ("https://h.io"), secret_path := str ("a/b"),
             api_version := str ("v1") }
      { status := 200, rawBody := [],
        json := some (.obj [(str ("data"), .obj [(str ("foo"), .str (str ("bar")))])]) } =
    .ok (.obj [(str ("foo"), .str (str ("bar")))]) := rfl

example :
    ssh_run { token := [], url := str ("https://h.io"), secret_path := str ("ssh"),
              role := str ("r"), public_key := str ("pk") }
      { status := 200, rawBody := [],
        json := some (.obj [(str ("data"),
          .obj [(str ("signed_key"), .str (str ("ssh-rsa X")))])]) } =
    .ok (.str (str ("ssh-rsa X"))) := rfl

theorem lstripSlash_no_slash (s : Str) (h : '/' ∉ s) : lstripSlash s = s := by
  cases s with
  | nil => rfl
  | cons c cs =>
    have hc : ¬ (c = '/') := fun hc => h (hc ▸ List.mem_cons_self c cs)
    simp [lstripSlash, List.dropWhile, hc]

theorem splitOnSlash_no_slash (s : Str) (h : '/' ∉ s) : splitOnSlash s = [s] := by
  induction s with
  | nil => rfl
  | cons c cs ih =>
    have hc : ¬ (c = '/') := fun hc => h (hc ▸ List.mem_cons_self c cs)
    have hcs : '/' ∉ cs := fun hm => h (List.mem_cons_of_mem c hm)
    simp [splitOnSlash, hc, ih hcs]

theorem splitOnSlash_append (xs ys : Str) (h : '/' ∉ xs) :
    splitOnSlash (xs ++ '/' :: ys) = xs :: splitOnSlash ys := by
  induction xs with
  | nil => simp [splitOnSlash]
  | cons c cs ih =>
    have hc : ¬ (c = '/') := fun hc => h (hc ▸ List.mem_cons_self c cs)
    have hcs : '/' ∉ cs := fun hm => h (List.mem_cons_of_mem c hm)
    simp only [List.cons_append, splitOnSlash, hc, if_false]
    rw [List.append_eq, ih hcs]

theorem joinSlash_cons (x : Str) (ys : List Str) :
    joinSlash (x :: ys) = x ++ (if ys = [] then [] else '/' :: joinSlash ys) := by
  cases ys with
  | nil => simp [joinSlash]
  | cons y rest => simp [joinSlash]

theorem getItem_ok_iff_jget (j : Json) (k : Str) (v : Json) :
    getItem j k = .ok v ↔ jget j k = some v := by
  cases j <;> simp [getItem, jget]
  case obj kvs =>
    cases h : assocLookup kvs k <;> simp [h]

theorem urljoinCore_no_slash (pre host : Str) (h2 : '/' ∉ host) :
    urljoinCore pre host = pre ++ host ++ str ("/v1") ∧
    urljoinCore pre (host ++ ['/']) = pre ++ host ++ str ("/v1") := by
  constructor
  · rw [urljoinCore, splitOnSlash_no_slash host h2]
    simp [joinSlash, List.append_assoc]
    decide
  · rw [urljoinCore, show host ++ ['/'] = host ++ '/' :: [] from rfl,
      splitOnSlash_append host [] h2]
    simp [splitOnSlash, joinSlash, List.append_assoc]
    decide

theorem urljoinV1_no_path (host : Str) (h2 : '/' ∉ host) :
    urljoinV1 (str ("https://") ++ host) = str ("https://") ++ host ++ str ("/v1") ∧
    urljoinV1 (str ("https://") ++ host ++ ['/']) = str ("https://") ++ host ++ str ("/v1") := by
  have e1 : urljoinV1 (str ("https://") ++ host) = urljoinCore (str ("https://")) host := rfl
  have e2 : urljoinV1 (str ("https://") ++ host ++ ['/']) =
      urljoinCore (str ("https://")) (host ++ ['/']) := rfl
  rw [e1, e2]
  exact urljoinCore_no_slash (str ("https://")) host h2

/-- C4: for every non-empty secret-location string the KV v2
decomposition is total (it always yields a mount point and sub-path);
when `pathlib` produces no parts (a malformed, all-slash location) the
whole original string becomes the mount point with an empty sub-path;
and a single-segment location (no `'/'` at all) maps to itself as mount
point with an empty sub-path. -/
theorem C4_split_secret_path (s : Str) (hne : s ≠ []) :
    (∃ mp sub, splitSecretPath s = (mp, sub)) ∧
    (pathParts s = [] → splitSecretPath s = (s, [])) ∧
    ('/' ∉ s → splitSecretPath s = (s, [])) := by
  refine ⟨⟨(splitSecretPath s).1, (splitSecretPath s).2, rfl⟩, ?_, ?_⟩
  · intro h
    simp [splitSecretPath, h]
  · intro h
    by_cases hdot : s = ['.']
    · subst hdot; rfl
    · simp [splitSecretPath, pathParts, lstripSlash_no_slash s h,
        splitOnSlash_no_slash s h, hne, hdot]

theorem C4_witness :
    (str ("engine") ≠ []) ∧
    splitSecretPath (str ("engine")) = (str ("engine"), []) :=
  ⟨by decide, (C4_split_secret_path (str ("engine")) (by decide)).2.2 (by decide)⟩

/-- C3 counterexample: for the server URL `https://h.io/sub` the base
request URL is `https://h.io/v1`, not `https://h.io/sub/v1` — `urljoin`
resolves `v1` as a relative reference, replacing the URL's last path
segment rather than appending.  The same holds in both backends. -/
theorem C3_counterexample :
    kvBase { token := [], url := str ("https://h.io/sub"), secret_path := [],
             api_version := str ("v1") } = str ("https://h.io/v1") ∧
    str ("https://h.io/v1") ≠ str ("https://h.io/sub") ++ str ("/v1") ∧
    sshBase { token := [], url := str ("https://h.io/sub"), secret_path := [],
              role := [], public_key := [] } ≠
      str ("https://h.io/sub") ++ str ("/v1") :=
  ⟨by decide, by decide, by decide⟩

/-- C3 amended: the base request URL is `urljoin(<server URL>, 'v1')`.
When the server URL has no path component (`https://<host>` with or
without a trailing slash), this equals `<scheme://host>/v1`, the same
for both backends regardless of the engine-version selector; a server
URL with a non-empty path gets its last path segment replaced by `v1`
instead. -/
theorem C3_amended (host : Str) (a : KvArgs) (sa : SshArgs)
    (h1 : host ≠ []) (h2 : '/' ∉ host)
    (hu : a.url = str ("https://") ++ host) (hsu : sa.url = a.url) :
    kvBase a = a.url ++ str ("/v1") ∧
    sshBase sa = a.url ++ str ("/v1") ∧
    urljoinV1 (a.url ++ ['/']) = a.url ++ str ("/v1")  := by
  obtain ⟨k1, k2⟩ := urljoinV1_no_path host h2
  refine ⟨?_, ?_, ?_⟩
  · rw [kvBase, hu]
    exact k1
  · rw [sshBase, hsu, hu]
    exact k1
  · rw [hu]
    exact k2

theorem C3_witness :
    kvBase { token := [], url := str ("https://h.io"), secret_path := [],
             api_version := str ("v2") } =
      str ("https://h.io") ++ str ("/v1") :=
  (C3_amended (str ("h.io"))
    { token := [], url := str ("https://h.io"), secret_path := [],
      api_version := str ("v2") }
    { token := [], url := str ("https://h.io"), secret_path := [],
      role := [], public_key := [] }
    (by decide) (by decide) rfl rfl).1

/-- C7 counterexample: a 304 response — non-2xx — does not raise in
`raise_for_status` (which raises only for 4xx/5xx), so the KV backend
proceeds to decode and extract, and can even return a value. -/
theorem C7_counterexample :
    ¬ (200 ≤ 304 ∧ 304 < 300) ∧
    isTransportError
      (kv_run { token := [], url := str ("https://h.io"),
                secret_path := str ("a"), api_version := str ("v1") }
        { status := 304, rawBody := [],
          json := some (.obj [(str ("data"),
            .obj [(str ("foo"), .str (str ("bar")))])]) }) = false ∧
    kv_run { token := [], url := str ("https://h.io"),
             secret_path := str ("a"), api_version := str ("v1") }
      { status := 304, rawBody := [],
        json := some (.obj [(str ("data"),
          .obj [(str ("foo"), .str (str ("bar")))])]) } =
      .ok (.obj [(str ("foo"), .str (str ("bar")))]) :=
  ⟨by decide, rfl, rfl⟩

/-- C7 amended: a 4xx or 5xx response causes either backend to fail
with the transport error carrying the status and body, before any value
extraction; statuses outside 4xx/5xx (including non-2xx ones such as
304) do not raise and proceed to decoding. -/
theorem C7_amended (a : KvArgs) (sa : SshArgs) (r : HttpResponse)
    (h4 : 400 ≤ r.status) (h6 : r.status < 600) :
    kv_run a r = .error (.httpError r.status r.rawBody) ∧
    ssh_run sa r = .error (.httpError r.status r.rawBody) := by
  have hb : raiseForStatus r.status = true := by
    unfold raiseForStatus
    rcases Nat.lt_or_ge r.status 500 with h | h
    · simp [h4, h]
    · simp [h, h6]
  constructor
  · unfold kv_run
    simp [hb]
  · unfold ssh_run
    simp [hb]

/-- C2: the KV request URL per engine version — for `v1` it is
`<base>/<location>` with trailing slashes stripped and no query
parameters; for `v2` it is `<base>/<mount_point>/data/<sub_path>` (the
sub-path segment omitted when empty) with trailing slashes stripped,
and the `version` query parameter is attached exactly when a non-empty
version string was supplied (an empty or absent `secret_version` is
treated as not supplied, matching the field's documented default). -/
theorem C2_kv_request_url (a : KvArgs) :
    (a.api_version = str ("v1") →
      kvRequestUrl a = rstripSlash (kvBase a ++ '/' :: a.secret_path) ∧
      kvParams a = []) ∧
    (a.api_version = str ("v2") →
      kvRequestUrl a =
        rstripSlash (kvBase a ++ '/' :: (splitSecretPath a.secret_path).1 ++
          str ("/data") ++
          (if (splitSecretPath a.secret_path).2 = [] then []
           else '/' :: joinSlash (splitSecretPath a.secret_path).2)) ∧
      (truthyOpt a.secret_version = true →
        kvParams a = [(str ("version"), a.secret_version.getD [])]) ∧
      (truthyOpt a.secret_version = false → kvParams a = [])) := by
  constructor
  · intro hv1
    have hne : ¬ (a.api_version = str ("v2")) := by
      rw [hv1]; decide
    constructor
    · simp [kvRequestUrl, hne, joinSlash]
    · simp [kvParams, hne]
  · intro hv2
    refine ⟨?_, ?_, ?_⟩
    · cases hsub : (splitSecretPath a.secret_path).2 with
      | nil =>
        simp [kvRequestUrl, hv2, hsub, joinSlash, joinSlash_cons, List.append_assoc]
        rfl
      | cons x xs =>
        simp [kvRequestUrl, hv2, hsub, joinSlash_cons, List.append_assoc]
        rfl
    · intro ht
      simp [kvParams, hv2, ht]
    · intro ht
      simp [kvParams, hv2, ht]

theorem C2_witness :
    kvRequestUrl { token := [], url := str ("https://h.io"),
                   secret_path := str ("eng/a"), api_version := str ("v2"),
                   secret_version := some (str ("3")) } =
      str ("https://h.io/v1/eng/data/a") ∧
    kvParams { token := [], url := str ("https://h.io"),
               secret_path := str ("eng/a"), api_version := str ("v2"),
               secret_version := some (str ("3")) } =
      [(str ("version"), str ("3"))] := by
  have h := (C2_kv_request_url
    { token := [], url := str ("https://h.io"), secret_path := str ("eng/a"),
      api_version := str ("v2"), secret_version := some (str ("3")) }).2 rfl
  refine ⟨?_, h.2.1 rfl⟩
  rw [h.1]
  decide

theorem kvStage1_not_notFound (a : KvArgs) (body : Json) (m : Str) :
    kvStage1 a body ≠ .error (.notFound m) := by
  unfold kvStage1
  split
  · cases getItem body (str ("data")) <;> simp
  · simp

theorem kvFinish_no_notFound (a : KvArgs) (json : Json)
    (h : truthyOpt a.secret_key = false) :
    isSecretNotFound (kvFinish a json) = false := by
  unfold kvFinish
  rw [h]
  cases getItem json (str ("data")) with
  | error e => rfl
  | ok m => rfl

/-- C10 (implicit): supplying the required key-name parameter as the
empty string behaves exactly as if no key name were supplied — the
backend runs identically to the `secret_key = None` invocation
(returning the full mapping on the success path) and can never raise
the not-found error, because `if secret_key:` tests truthiness. -/
theorem C10_empty_secret_key (a : KvArgs) (r : HttpResponse)
    (h : a.secret_key = some []) :
    kv_run a r = kv_run { a with secret_key := none } r ∧
    isSecretNotFound (kv_run a r) = false := by
  have ht : truthyOpt a.secret_key = false := by
    rw [h]; rfl
  have hfin : ∀ j : Json, kvFinish a j = kvFinish { a with secret_key := none } j := by
    intro j
    unfold kvFinish
    rw [ht]
    rfl
  have hdec : ∀ b : Json, kvDecode a b = kvDecode { a with secret_key := none } b := by
    intro b
    unfold kvDecode
    have e : kvStage1 { a with secret_key := none } b = kvStage1 a b := rfl
    rw [e]
    cases kvStage1 a b with
    | error e => rfl
    | ok j => exact hfin j
  have hnf : ∀ b : Json, isSecretNotFound (kvDecode a b) = false := by
    intro b
    unfold kvDecode
    cases hst : kvStage1 a b with
    | error e =>
      cases e with
      | httpError st bb => rfl
      | jsonDecodeError => rfl
      | uncaught ex => rfl
      | notFound m => exact absurd hst (kvStage1_not_notFound a b m)
    | ok j => exact kvFinish_no_notFound a j ht
  constructor
  · unfold kv_run
    split
    · rfl
    · cases r.json with
      | none => rfl
      | some body => exact hdec body
  · unfold kv_run
    split
    · rfl
    · cases r.json with
      | none => rfl
      | some body => exact hnf body

theorem C10_witness :
    kv_run { token := [], url := [], secret_path := str ("a"),
             secret_key := some [], api_version := str ("v1") }
      { status := 200, rawBody := [],
        json := some (.obj [(str ("data"), .obj [(str ("foo"), .str (str ("bar")))])]) } =
    kv_run { token := [], url := [], secret_path := str ("a"),
             secret_key := none, api_version := str ("v1") }
      { status := 200, rawBody := [],
        json := some (.obj [(str ("data"), .obj [(str ("foo"), .str (str ("bar")))])]) } ∧
    isSecretNotFound
      (kv_run { token := [], url := [], secret_path := str ("a"),
                secret_key := some [], api_version := str ("v1") }
        { status := 200, rawBody := [],
          json := some (.obj [(str ("data"),
            .obj [(str ("foo"), .str (str ("bar")))])]) }) = false :=
  C10_empty_secret_key
    { token := [], url := [], secret_path := str ("a"),
      secret_key := some [], api_version := str ("v1") }
    { status := 200, rawBody := [],
      json := some (.obj [(str ("data"), .obj [(str ("foo"), .str (str ("bar")))])]) }
    rfl

/-- C5: when a (truthy) key name is supplied and absent from the
resolved secret mapping, the KV backend fails with the not-found
`RuntimeError`, whose message names both the key and the secret
location, and returns no value. -/
theorem C5_secret_not_found (a : KvArgs) (r : HttpResponse) (k : Str)
    (body json : Json) (m : List (Str × Json))
    (hst : raiseForStatus r.status = false)
    (hjson : r.json = some body)
    (hkey : a.secret_key = some k) (hk : k ≠ [])
    (hstage : kvStage1 a body = .ok json)
    (hm : getItem json (str ("data")) = .ok (.obj m))
    (habsent : assocLookup m k = none) :
    kv_run a r = .error (.notFound (notFoundMsg k a.secret_path)) ∧
    ∃ mid, notFoundMsg k a.secret_path = k ++ mid ++ a.secret_path := by
  have ht : truthyOpt a.secret_key = true := by
    rw [hkey]
    cases k with
    | nil => exact absurd rfl hk
    | cons c cs => rfl
  constructor
  · have hrun : kv_run a r = kvDecode a body := by
      unfold kv_run
      rw [hjson, hst]
      rfl
    rw [hrun]
    unfold kvDecode
    rw [hstage]
    show kvFinish a json = _
    unfold kvFinish
    rw [ht, hkey, hm]
    simp only [kvLookup, hkey, getItem, Option.getD]
    rw [habsent]
    rfl
  · exact ⟨str (" is not present at "), rfl⟩

theorem C5_witness :
    kv_run { token := [], url := [], secret_path := str ("eng/a"),
             secret_key := some (str ("foo")), api_version := str ("v1") }
      { status := 200, rawBody := [],
        json := some (.obj [(str ("data"), .obj [(str ("other"), .str (str ("x")))])]) } =
      .error (.notFound (notFoundMsg (str ("foo")) (str ("eng/a")))) :=
  (C5_secret_not_found
    { token := [], url := [], secret_path := str ("eng/a"),
      secret_key := some (str ("foo")), api_version := str ("v1") }
    { status := 200, rawBody := [],
      json := some (.obj [(str ("data"), .obj [(str ("other"), .str (str ("x")))])]) }
    (str ("foo"))
    (.obj [(str ("data"), .obj [(str ("other"), .str (str ("x")))])])
    (.obj [(str ("data"), .obj [(str ("other"), .str (str ("x")))])])
    [(str ("other"), .str (str ("x")))]
    rfl rfl rfl (by decide) rfl rfl rfl).1

/-- C6: the SSH request URL is `<base>/<secret location>/sign/<role>`
with trailing slashes stripped; the POST body is `{public_key: P}` when
principals are omitted (not truthy) and gains `valid_principals` when
supplied; and on a response containing `data.signed_key` the backend
returns exactly that value. -/
theorem C6_ssh_backend (sa : SshArgs) (r : HttpResponse) (body d sk : Json) :
    (sshRequestUrl sa =
      rstripSlash (sshBase sa ++ '/' :: sa.secret_path ++ str ("/sign/") ++ sa.role)) ∧
    (truthyOpt sa.valid_principals = false →
      sshBody sa = [(str ("public_key"), .str sa.public_key)]) ∧
    (truthyOpt sa.valid_principals = true →
      sshBody sa = [(str ("public_key"), .str sa.public_key),
        (str ("valid_principals"), .str (sa.valid_principals.getD []))]) ∧
    (raiseForStatus r.status = false → r.json = some body →
      jget body (str ("data")) = some d → jget d (str ("signed_key")) = some sk →
      ssh_run sa r = .ok sk) := by
  refine ⟨?_, ?_, ?_, ?_⟩
  · have h : sshBase sa ++ '/' :: sa.secret_path ++ str ("/sign/") ++ sa.role =
        joinSlash [sshBase sa, sa.secret_path, str ("sign"), sa.role] := by
      show sshBase sa ++ '/' :: sa.secret_path ++ str ("/sign/") ++ sa.role =
        sshBase sa ++ '/' :: (sa.secret_path ++ '/' :: (str ("sign") ++ '/' :: sa.role))
      simp [List.append_assoc]
      rfl
    rw [sshRequestUrl, h]
  · intro h
    simp [sshBody, h]
  · intro h
    simp [sshBody, h]
  · intro hst hjson hd hsk
    have hd' := (getItem_ok_iff_jget body (str ("data")) d).mpr hd
    have hsk' := (getItem_ok_iff_jget d (str ("signed_key")) sk).mpr hsk
    unfold ssh_run
    rw [hjson, hst]
    show sshDecode body = .ok sk
    unfold sshDecode
    rw [hd']
    show sshExtract d = .ok sk
    unfold sshExtract
    rw [hsk']

theorem C6_witness :
    sshRequestUrl { token := [], url := str ("https://h.io"),
                    secret_path := str ("ssh"), role := str ("web"),
                    public_key := str ("AAAA"),
                    valid_principals := some (str ("host1")) } =
      str ("https://h.io/v1/ssh/sign/web") ∧
    sshBody { token := [], url := str ("https://h.io"),
              secret_path := str ("ssh"), role := str ("web"),
              public_key := str ("AAAA"),
              valid_principals := some (str ("host1")) } =
      [(str ("public_key"), .str (str ("AAAA"))),
       (str ("valid_principals"), .str (str ("host1")))] ∧
    ssh_run { token := [], url := str ("https://h.io"),
              secret_path := str ("ssh"), role := str ("web"),
              public_key := str ("AAAA"),
              valid_principals := some (str ("host1")) }
      { status := 200, rawBody := [],
        json := some (.obj [(str ("data"),
          .obj [(str ("signed_key"), .str (str ("ssh-rsa Z")))])]) } =
      .ok (.str (str ("ssh-rsa Z"))) := by
  have h := C6_ssh_backend
    { token := [], url := str ("https://h.io"), secret_path := str ("ssh"),
      role := str ("web"), public_key := str ("AAAA"),
      valid_principals := some (str ("host1")) }
    { status := 200, rawBody := [],
      json := some (.obj [(str ("data"),
        .obj [(str ("signed_key"), .str (str ("ssh-rsa Z")))])]) }
    (.obj [(str ("data"), .obj [(str ("signed_key"), .str (str ("ssh-rsa Z")))])])
    (.obj [(str ("signed_key"), .str (str ("ssh-rsa Z")))])
    (.str (str ("ssh-rsa Z")))
  refine ⟨?_, h.2.2.1 rfl, h.2.2.2 rfl rfl rfl rfl⟩
  rw [h.1]
  decide

/-- C8 counterexample: a 2xx response whose valid-JSON body lacks the
`data` field, received by the KV backend with a key name supplied,
fails with the secret-not-found `RuntimeError` — not with a
decode/shape error — because the `except KeyError` handler also
catches the `KeyError` raised by the `['data']` subscript. -/
theorem C8_counterexample :
    kv_run { token := [], url := [], secret_path := str ("eng/a"),
             secret_key := some (str ("foo")), api_version := str ("v1") }
      { status := 200, rawBody := [],
        json := some (.obj [(str ("x"), .str (str ("y")))]) } =
      .error (.notFound (notFoundMsg (str ("foo")) (str ("eng/a")))) ∧
    isSecretNotFound
      (kv_run { token := [], url := [], secret_path := str ("eng/a"),
                secret_key := some (str ("foo")), api_version := str ("v1") }
        { status := 200, rawBody := [],
          json := some (.obj [(str ("x"), .str (str ("y")))]) }) = true ∧
    isDecodeShapeError
      (kv_run { token := [], url := [], secret_path := str ("eng/a"),
                secret_key := some (str ("foo")), api_version := str ("v1") }
        { status := 200, rawBody := [],
          json := some (.obj [(str ("x"), .str (str ("y")))]) }) = false :=
  ⟨rfl, rfl, rfl⟩

/-- C8 amended: on a 2xx response with valid JSON of the wrong shape,
the backends fail with an uncaught `KeyError` (a shape error distinct
from the not-found error) in every case except one — in the KV backend
with a (truthy) key name supplied, a missing `data` field in the
extracted object (the whole response for v1, the response's `data`
object for v2 — the result of the `json` assignment, `kvStage1`) is
converted by the `except KeyError` handler into the secret-not-found
`RuntimeError` naming the key; without a truthy key the same missing
field is an uncaught `KeyError`, as is the v2 top-level `data`
subscript (outside the `try`) whatever the key; the SSH backend's
missing `data` or missing `signed_key` always surfaces as the uncaught
`KeyError`. -/
theorem C8_amended (a : KvArgs) (sa : SshArgs) (r : HttpResponse)
    (body json d : Json) (k : Str)
    (hst : raiseForStatus r.status = false) (hjson : r.json = some body) :
    (a.api_version = str ("v2") →
      getItem body (str ("data")) = .error (.keyError (str ("data"))) →
      kv_run a r = .error (.uncaught (.keyError (str ("data"))))) ∧
    (kvStage1 a body = .ok json → truthyOpt a.secret_key = false →
      getItem json (str ("data")) = .error (.keyError (str ("data"))) →
      kv_run a r = .error (.uncaught (.keyError (str ("data"))))) ∧
    (kvStage1 a body = .ok json → a.secret_key = some k → k ≠ [] →
      getItem json (str ("data")) = .error (.keyError (str ("data"))) →
      kv_run a r = .error (.notFound (notFoundMsg k a.secret_path))) ∧
    (getItem body (str ("data")) = .error (.keyError (str ("data"))) →
      ssh_run sa r = .error (.uncaught (.keyError (str ("data"))))) ∧
    (getItem body (str ("data")) = .ok d →
      getItem d (str ("signed_key")) = .error (.keyError (str ("signed_key"))) →
      ssh_run sa r = .error (.uncaught (.keyError (str ("signed_key"))))) := by
  have hkv : kv_run a r = kvDecode a body := by
    unfold kv_run
    rw [hjson, hst]
    rfl
  have hssh : ssh_run sa r = sshDecode body := by
    unfold ssh_run
    rw [hjson, hst]
    rfl
  refine ⟨?_, ?_, ?_, ?_, ?_⟩
  · intro hv2 hd
    rw [hkv]
    unfold kvDecode kvStage1
    rw [if_pos hv2, hd]
  · intro hstage htk hd
    rw [hkv]
    unfold kvDecode
    rw [hstage]
    show kvFinish a json = _
    unfold kvFinish
    rw [htk, hd]
    rfl
  · intro hstage hkey hkne hd
    have ht : truthyOpt a.secret_key = true := by
      rw [hkey]
      cases k with
      | nil => exact absurd rfl hkne
      | cons c cs => rfl
    rw [hkv]
    unfold kvDecode
    rw [hstage]
    show kvFinish a json = _
    unfold kvFinish
    rw [ht, hd, hkey]
    rfl
  · intro hd
    rw [hssh]
    unfold sshDecode
    rw [hd]
  · intro hd hsk
    rw [hssh]
    unfold sshDecode
    rw [hd]
    show sshExtract d = _
    unfold sshExtract
    rw [hsk]

theorem C8_witness :
    kv_run { token := [], url := [], secret_path := str ("eng/a"),
             secret_key := some (str ("foo")), api_version := str ("v2") }
      { status := 200, rawBody := [],
        json := some (.obj [(str ("data"),
          .obj [(str ("metadata"), .obj [])])]) } =
      .error (.notFound (notFoundMsg (str ("foo")) (str ("eng/a")))) ∧
    kv_run { token := [], url := [], secret_path := str ("eng/a"),
             secret_key := none, api_version := str ("v2") }
      { status := 200, rawBody := [],
        json := some (.obj [(str ("data"),
          .obj [(str ("metadata"), .obj [])])]) } =
      .error (.uncaught (.keyError (str ("data")))) ∧
    ssh_run { token := [], url := [], secret_path := str ("p"),
              role := [], public_key := [] }
      { status := 200, rawBody := [],
        json := some (.obj [(str ("x"), .str (str ("y")))]) } =
      .error (.uncaught (.keyError (str ("data")))) :=
  ⟨(C8_amended
      { token := [], url := [], secret_path := str ("eng/a"),
        secret_key := some (str ("foo")), api_version := str ("v2") }
      { token := [], url := [], secret_path := str ("p"),
        role := [], public_key := [] }
      { status := 200, rawBody := [],
        json := some (.obj [(str ("data"), .obj [(str ("metadata"), .obj [])])]) }
      (.obj [(str ("data"), .obj [(str ("metadata"), .obj [])])])
      (.obj [(str ("metadata"), .obj [])]) .null (str ("foo"))
      rfl rfl).2.2.1 rfl rfl (by decide) rfl,
   (C8_amended
      { token := [], url := [], secret_path := str ("eng/a"),
        secret_key := none, api_version := str ("v2") }
      { token := [], url := [], secret_path := str ("p"),
        role := [], public_key := [] }
      { status := 200, rawBody := [],
        json := some (.obj [(str ("data"), .obj [(str ("metadata"), .obj [])])]) }
      (.obj [(str ("data"), .obj [(str ("metadata"), .obj [])])])
      (.obj [(str ("metadata"), .obj [])]) .null (str ("x"))
      rfl rfl).2.1 rfl rfl rfl,
   (C8_amended
      { token := [], url := [], secret_path := str ("eng/a"),
        secret_key := none, api_version := str ("v2") }
      { token := [], url := [], secret_path := str ("p"),
        role := [], public_key := [] }
      { status := 200, rawBody := [],
        json := some (.obj [(str ("x"), .str (str ("y")))]) }
      (.obj [(str ("x"), .str (str ("y")))]) .null .null (str ("x"))
      rfl rfl).2.2.2.1 rfl⟩

theorem kvStage1_spec (a : KvArgs) (body json : Json)
    (h : kvStage1 a body = .ok json) (m : Json)
    (hm : jget json (str ("data")) = some m) :
    specKvMapping a.api_version body = some m := by
  unfold kvStage1 at h
  unfold specKvMapping
  by_cases hv : a.api_version = str ("v2")
  · rw [if_pos hv] at h ⊢
    cases hd : getItem body (str ("data")) with
    | error e =>
      rw [hd] at h
      simp at h
    | ok d =>
      rw [hd] at h
      simp at h
      subst h
      rw [(getItem_ok_iff_jget body (str ("data")) d).mp hd]
      simpa using hm
  · rw [if_neg hv] at h ⊢
    simp at h
    subst h
    exact hm

/-- C1: every successful KV invocation's value comes out of the decoded
response as the claim describes — the mapping is `data.data` for `v2`
and the top-level `data` object for `v1`; with a (truthy) key name the
value at that key in the mapping is returned, without one the full
mapping is returned. -/
theorem C1_kv_extraction (a : KvArgs) (r : HttpResponse) (v : Json)
    (hapi : a.api_version = str ("v1") ∨ a.api_version = str ("v2"))
    (hok : kv_run a r = .ok v) :
    ∃ body m, r.json = some body ∧
      specKvMapping a.api_version body = some m ∧
      ((truthyOpt a.secret_key = true ∧ jget m (a.secret_key.getD []) = some v) ∨
       (truthyOpt a.secret_key = false ∧ v = m)) := by
  unfold kv_run at hok
  split at hok
  · exact absurd hok (by simp)
  · cases hj : r.json with
    | none =>
      rw [hj] at hok
      exact absurd hok (by simp)
    | some body =>
      rw [hj] at hok
      replace hok : kvDecode a body = .ok v := hok
      unfold kvDecode at hok
      cases hst : kvStage1 a body with
      | error e =>
        rw [hst] at hok
        exact absurd hok (by simp)
      | ok json =>
        rw [hst] at hok
        replace hok : kvFinish a json = .ok v := hok
        unfold kvFinish at hok
        cases ht : truthyOpt a.secret_key with
        | true =>
          rw [ht] at hok
          simp only [if_true] at hok
          cases h1 : getItem json (str ("data")) with
          | error e =>
            cases e with
            | keyError kk =>
              rw [h1] at hok
              exact absurd hok (by simp)
            | typeError =>
              rw [h1] at hok
              exact absurd hok (by simp)
          | ok mj =>
            rw [h1] at hok
            replace hok : kvLookup a mj = .ok v := hok
            unfold kvLookup at hok
            cases h2 : getItem mj (a.secret_key.getD []) with
            | error e2 =>
              cases e2 with
              | keyError kk =>
                rw [h2] at hok
                exact absurd hok (by simp)
              | typeError =>
                rw [h2] at hok
                exact absurd hok (by simp)
            | ok v2 =>
              rw [h2] at hok
              have hv2 : v2 = v := by simpa using hok
              refine ⟨body, mj, rfl, ?_, Or.inl ⟨rfl, ?_⟩⟩
              · exact kvStage1_spec a body json hst mj
                  ((getItem_ok_iff_jget json (str ("data")) mj).mp h1)
              · rw [← hv2]
                exact (getItem_ok_iff_jget mj (a.secret_key.getD []) v2).mp h2
        | false =>
          rw [ht] at hok
          simp only [Bool.false_eq_true, if_false] at hok
          cases h1 : getItem json (str ("data")) with
          | error e =>
            rw [h1] at hok
            exact absurd hok (by simp)
          | ok mj =>
            rw [h1] at hok
            have hmj : mj = v := by simpa using hok
            refine ⟨body, mj, rfl, ?_, Or.inr ⟨rfl, hmj.symm⟩⟩
            exact kvStage1_spec a body json hst mj
              ((getItem_ok_iff_jget json (str ("data")) mj).mp h1)

theorem C1_witness :
    ∃ body m,
      (HttpResponse.mk 200 []
        (some (.obj [(str ("data"),
          .obj [(str ("data"), .obj [(str ("foo"), .str (str ("bar")))])])]))).json =
        some body ∧
      specKvMapping (str ("v2")) body = some m ∧
      ((truthyOpt (some (str ("foo"))) = true ∧
        jget m ((some (str ("foo"))).getD []) = some (.str (str ("bar")))) ∨
       (truthyOpt (some (str ("foo"))) = false ∧ (.str (str ("bar")) : Json) = m)) :=
  C1_kv_extraction
    { token := [], url := [], secret_path := str ("a/b"),
      secret_key := some (str ("foo")), api_version := str ("v2") }
    { status := 200, rawBody := [],
      json := some (.obj [(str ("data"),
        .obj [(str ("data"), .obj [(str ("foo"), .str (str ("bar")))])])]) }
    (.str (str ("bar"))) (Or.inr rfl) rfl

theorem C7_witness :
    kv_run { token := [], url := [], secret_path := [], api_version := str ("v1") }
      { status := 500, rawBody := str ("boom"), json := none } =
      .error (.httpError 500 (str ("boom"))) ∧
    ssh_run { token := [], url := [], secret_path := [], role := [], public_key := [] }
      { status := 500, rawBody := str ("boom"), json := none } =
      .error (.httpError 500 (str ("boom"))) :=
  C7_amended _ _ _ (by decide) (by decide)
